import Mathlib

/-!
Verification of the SO!MAP land-register extract service (`src/server.py`)
against its natural-language specification.

The embedding models the two HTTP handlers of the service:

* `LandRegisterTemplates.get` (capabilities fetch + XML template listing),
  embedded as `listTemplates` / `parseCapabilities` below;
* `LandRegisterExtract.post` (print request normalization, centroid
  computation, parcel enrichment, key renaming, proxying), embedded as
  `build` / `forward` below.

Python dictionaries are modelled as ordered association lists with the same
observable behaviour (assignment keeps an existing key's position and
replaces its value, a new key is appended, `del` removes the entry); Python
`float` values are modelled as rationals (`ℚ`); Python exceptions are
modelled with an explicit error type (`PyError`), where `KeyError` plays the
role the spec calls `MissingParameterError` and `ValueError` / `IndexError`
from extent parsing play the role of `MalformedParameterError`.  The
external collaborators (spatial query, upstream HTTP responses) enter as
explicit parameters, and the connection-handling side effects of the print
handler are recorded in the `BuildResult` structure.
-/

namespace LandReg

/-! ## Ordered dictionaries (Python `dict` model) -/

/-- Lookup in an ordered association list (`params[k]` read access). -/
def dlookup : List (String × String) → String → Option String
  | [], _ => none
  | (k, v) :: m, key => if k = key then some v else dlookup m key

/-- Python `params[k] = v`: replace the value in place when the key exists,
append the pair otherwise. -/
def dinsert : List (String × String) → String → String → List (String × String)
  | [], k, v => [(k, v)]
  | (k0, v0) :: m, k, v =>
      if k0 = k then (k0, v) :: m else (k0, v0) :: dinsert m k v

/-- Python `del params[k]`: drop the entry holding `k`. -/
def ddel : List (String × String) → String → List (String × String)
  | [], _ => []
  | (k0, v0) :: m, k => if k0 = k then m else (k0, v0) :: ddel m k

/-- The keys of the dictionary are pairwise distinct (every dictionary the
handler manipulates is built by `dinsert` from a literal, so this invariant
holds throughout). -/
def keysNodup (m : List (String × String)) : Prop :=
  (m.map Prod.fst).Nodup

instance (m : List (String × String)) : Decidable (keysNodup m) := by
  unfold keysNodup; infer_instance

/-! ## Python string helpers -/

/-- `s.split(",")` on the character list: splitting on every comma, keeping
empty pieces, so the result is always non-empty (Python's behaviour for a
non-empty separator). -/
def splitCommaCh : List Char → List (List Char)
  | [] => [[]]
  | c :: cs =>
      if c = ',' then [] :: splitCommaCh cs
      else
        match splitCommaCh cs with
        | [] => [[c]]
        | p :: ps => (c :: p) :: ps

/-- `",".join(pieces)` on character lists. -/
def joinCommaCh : List (List Char) → List Char
  | [] => []
  | [p] => p
  | p :: q :: ps => p ++ ',' :: joinCommaCh (q :: ps)

/-- Python `s.split(",")`. -/
def pySplitComma (s : String) : List String :=
  (splitCommaCh s.data).map List.asString

/-- Python `",".join(l)`. -/
def pyJoinComma (l : List String) : String :=
  (joinCommaCh (l.map String.data)).asString

/-- Numeric value of a digit run. -/
def digitsVal (l : List Char) : Nat :=
  l.foldl (fun a c => 10 * a + (c.toNat - '0'.toNat)) 0

/-- Characters Python's `float()` strips from both ends of its argument. -/
def isPyWs (c : Char) : Bool :=
  c = ' ' ∨ c = '\t' ∨ c = '\n' ∨ c = '\r'

/-- Python `float(s)` on the character list, for finite decimal literals:
optional surrounding whitespace, optional sign, a digit run with an optional
fractional part (at least one digit overall), and an optional decimal
exponent.  Values are exact rationals.  (The special spellings `inf` and
`nan` have no rational counterpart and underscore separators are not
modelled; the service only ever receives plain decimal coordinates.) -/
def pyFloatChars : List Char → Option ℚ := fun l =>
  let l := (l.dropWhile isPyWs).reverse.dropWhile isPyWs |>.reverse
  let sgn : ℚ × List Char :=
    match l with
    | '+' :: r => (1, r)
    | '-' :: r => (-1, r)
    | r => (1, r)
  let d1 := sgn.2.takeWhile Char.isDigit
  let r1 := sgn.2.dropWhile Char.isDigit
  let fr : List Char × List Char :=
    match r1 with
    | '.' :: r => (r.takeWhile Char.isDigit, r.dropWhile Char.isDigit)
    | r => ([], r)
  if d1.isEmpty ∧ fr.1.isEmpty then none
  else
    let mant : ℚ :=
      sgn.1 * ((digitsVal d1 : ℚ) + (digitsVal fr.1 : ℚ) / (10 : ℚ) ^ fr.1.length)
    match fr.2 with
    | [] => some mant
    | e :: r =>
        if e = 'e' ∨ e = 'E' then
          let es : Int × List Char :=
            match r with
            | '+' :: rr => (1, rr)
            | '-' :: rr => (-1, rr)
            | rr => (1, rr)
          let ed := es.2.takeWhile Char.isDigit
          let rr := es.2.dropWhile Char.isDigit
          if ed.isEmpty ∨ ¬ rr.isEmpty then none
          else some (mant * (10 : ℚ) ^ (es.1 * (digitsVal ed : Int)))
        else none

/-- Python `float(s)`. -/
def pyFloat (s : String) : Option ℚ :=
  pyFloatChars s.data

/-- ASCII upper-casing of one character, spelt out letter by letter. -/
def upChar (c : Char) : Char :=
  match c with
  | 'a' => 'A' | 'b' => 'B' | 'c' => 'C' | 'd' => 'D' | 'e' => 'E' | 'f' => 'F'
  | 'g' => 'G' | 'h' => 'H' | 'i' => 'I' | 'j' => 'J' | 'k' => 'K' | 'l' => 'L'
  | 'm' => 'M' | 'n' => 'N' | 'o' => 'O' | 'p' => 'P' | 'q' => 'Q' | 'r' => 'R'
  | 's' => 'S' | 't' => 'T' | 'u' => 'U' | 'v' => 'V' | 'w' => 'W' | 'x' => 'X'
  | 'y' => 'Y' | 'z' => 'Z' | other => other

/-- Python `str.upper` (the parameter keys of this service are ASCII, so
upper-casing is character-wise ASCII upper-casing). -/
def pyUpper (s : String) : String :=
  (s.data.map upChar).asString

/-- ASCII lower-casing of one character, spelt out letter by letter. -/
def lowChar (c : Char) : Char :=
  match c with
  | 'A' => 'a' | 'B' => 'b' | 'C' => 'c' | 'D' => 'd' | 'E' => 'e' | 'F' => 'f'
  | 'G' => 'g' | 'H' => 'h' | 'I' => 'i' | 'J' => 'j' | 'K' => 'k' | 'L' => 'l'
  | 'M' => 'm' | 'N' => 'n' | 'O' => 'o' | 'P' => 'p' | 'Q' => 'q' | 'R' => 'r'
  | 'S' => 's' | 'T' => 't' | 'U' => 'u' | 'V' => 'v' | 'W' => 'w' | 'X' => 'x'
  | 'Y' => 'y' | 'Z' => 'z' | other => other

/-- Python `str.lower` (the `FORMAT` values of this service are ASCII). -/
def pyLower (s : String) : String :=
  (s.data.map lowChar).asString

/-! ## The print handler (`LandRegisterExtract.post`, `src/server.py` 102-181)

The handler's inputs the claims range over are the decoded form body
(`post_params`, a key/value list), the configured printable layer list
(`LANDREG_PRINT_LAYERS`), and the behaviour of the spatial query
(`conn.execute(...).fetchone()`), which is passed in as a function of the
queried point.  The outcome records the final parameter dictionary or the
Python exception that escaped, together with whether the database connection
was acquired (`self.db.connect()`, line 134) and whether it was released
(`conn.close()`, line 150), and the point (with SRID) the spatial query was
invoked at. -/

/-- One row of `LANDREG_PRINTINFO_TABLE` as the query returns it. -/
structure ParcelRow where
  nfgeometer : String
  lieferdatum : String
  anschrift : String
  kontakt : String
  gemeinde : String
deriving DecidableEq

/-- Behaviour of `conn.execute(sql, x=x, y=y).fetchone()`: either a normal
return (`some row` / `none` for no matching parcel) or a raised exception. -/
inductive QueryResult where
  | ok : Option ParcelRow → QueryResult
  | raises : QueryResult
deriving DecidableEq

/-- The Python exceptions the print handler can raise.  `keyError k` is what
the spec calls `MissingParameterError` (a `dict` subscript on an absent
key); `valueError` (a `float()` conversion failure on an `EXTENT` entry) and
`indexError` (`EXTENT` splitting into fewer than four entries, lines
129-130) are what the spec calls `MalformedParameterError`; `queryError` is
an exception escaping from `conn.execute` / `fetchone`. -/
inductive PyError where
  | keyError : String → PyError
  | valueError : PyError
  | indexError : PyError
  | queryError : PyError
deriving DecidableEq

instance {ε α : Type} [DecidableEq ε] [DecidableEq α] :
    DecidableEq (Except ε α) := fun a b =>
  match a, b with
  | .error e, .error f =>
      if h : e = f then .isTrue (by rw [h])
      else .isFalse (fun c => h (by cases c; rfl))
  | .error _, .ok _ => .isFalse (fun c => by cases c)
  | .ok _, .error _ => .isFalse (fun c => by cases c)
  | .ok x, .ok y =>
      if h : x = y then .isTrue (by rw [h])
      else .isFalse (fun c => h (by cases c; rfl))

/-- What one execution of the print handler's parameter-building part (up to
the outbound `requests.post`) did. -/
structure BuildResult where
  outcome : Except PyError (List (String × String))
  connAcquired : Bool
  connReleased : Bool
  queried : Option (ℚ × ℚ × Int)
deriving DecidableEq

/-- The fixed defaults of the handler (`src/server.py` 112-117). -/
def printDefaults : List (String × String) :=
  [("SERVICE", "WMS"), ("VERSION", "1.3.0"),
   ("REQUEST", "GetPrint"), ("FORMAT", "PDF")]

/-- `dict(pairs)`: fold the pairs into an empty dictionary. -/
def pyDictOf (pairs : List (String × String)) : List (String × String) :=
  pairs.foldl (fun m kv => dinsert m kv.1 kv.2) []

/-- `d.update(pairs)` for a dictionary `pairs` (its items in order). -/
def dictUpdate (m pairs : List (String × String)) : List (String × String) :=
  pairs.foldl (fun m kv => dinsert m kv.1 kv.2) m

/-- The key-upper-casing comprehension of line 121. -/
def upperKeys (m : List (String × String)) : List (String × String) :=
  m.foldl (fun acc kv => dinsert acc (pyUpper kv.1) kv.2) []

/-- Defaults overlaid with the caller's parameters, keys upper-cased
(`src/server.py` 112-121). -/
def mergedParams (post : List (String × String)) : List (String × String) :=
  upperKeys (dictUpdate printDefaults (pyDictOf post))

/-- `",".join(map(lambda item: "255", layers.split(",")))` (line 125). -/
def opacitiesFor (layers : String) : String :=
  pyJoinComma ((pySplitComma layers).map fun _ => "255")

/-- The parameter dictionary after the `LAYERS` / `OPACITIES` injection
(`src/server.py` 112-125). -/
def baseParams (layers : String) (post : List (String × String)) :
    List (String × String) :=
  dinsert (dinsert (mergedParams post) "LAYERS" layers)
    "OPACITIES" (opacitiesFor layers)

/-- The five parcel-field assignments of lines 143-148 (skipped when the
query returned no row). -/
def enrich (row : Option ParcelRow) (m : List (String × String)) :
    List (String × String) :=
  match row with
  | none => m
  | some r =>
      dinsert (dinsert (dinsert (dinsert (dinsert m
        "NFGEOMETER" r.nfgeometer)
        "LIEFERDATUM" r.lieferdatum)
        "ANSCHRIFT" r.anschrift)
        "KONTAKT" r.kontakt)
        "GEMEINDE" r.gemeinde

/-- `params[new] = params[old]; del params[old]` — a `KeyError` escapes when
`old` is absent (lines 153-158). -/
def renameKey (m : List (String × String)) (old new : String) :
    Except PyError (List (String × String)) :=
  match dlookup m old with
  | none => .error (.keyError old)
  | some v => .ok (ddel (dinsert m new v) old)

/-- The guarded rename of lines 159-164 (`if old in params: ...`). -/
def renameIfPresent (m : List (String × String)) (old new : String) :
    List (String × String) :=
  match dlookup m old with
  | none => m
  | some v => ddel (dinsert m new v) old

/-- The composer-map prefixing block (`src/server.py` 152-164). -/
def finishParams (m : List (String × String)) :
    Except PyError (List (String × String)) :=
  match renameKey m "EXTENT" "map0:EXTENT" with
  | .error e => .error e
  | .ok p1 =>
      match renameKey p1 "SCALE" "map0:SCALE" with
      | .error e => .error e
      | .ok p2 =>
          match renameKey p2 "ROTATION" "map0:ROTATION" with
          | .error e => .error e
          | .ok p3 =>
              .ok (renameIfPresent
                    (renameIfPresent p3 "GRID_INTERVAL_X" "map0:GRID_INTERVAL_X")
                    "GRID_INTERVAL_Y" "map0:GRID_INTERVAL_Y")

/-- Lines 134-164: the connection is acquired, the spatial query runs at
`(x, y)` with SRID 2056, on a raised exception the handler exits without
`conn.close()`, otherwise the parcel fields are merged, the connection is
closed and the renames run. -/
def withQuery (query : ℚ → ℚ → QueryResult) (params : List (String × String))
    (x y : ℚ) : BuildResult :=
  match query x y with
  | .raises =>
      { outcome := .error .queryError, connAcquired := true,
        connReleased := false, queried := some (x, y, 2056) }
  | .ok row =>
      { outcome := finishParams (enrich row params), connAcquired := true,
        connReleased := true, queried := some (x, y, 2056) }

/-- Lines 128-130: the parsed extent list must reach index 3; the centroid
is `0.5 * (extent[0] + extent[2])`, `0.5 * (extent[1] + extent[3])`. -/
def withFloats (query : ℚ → ℚ → QueryResult) (params : List (String × String)) :
    Option (List ℚ) → BuildResult
  | none =>
      { outcome := .error .valueError, connAcquired := false,
        connReleased := false, queried := none }
  | some [] =>
      { outcome := .error .indexError, connAcquired := false,
        connReleased := false, queried := none }
  | some [_] =>
      { outcome := .error .indexError, connAcquired := false,
        connReleased := false, queried := none }
  | some [_, _] =>
      { outcome := .error .indexError, connAcquired := false,
        connReleased := false, queried := none }
  | some [_, _, _] =>
      { outcome := .error .indexError, connAcquired := false,
        connReleased := false, queried := none }
  | some (e0 :: e1 :: e2 :: e3 :: _) =>
      withQuery query params ((1 / 2 : ℚ) * (e0 + e2)) ((1 / 2 : ℚ) * (e1 + e3))

/-- `list(map(lambda x: float(x), pieces))`: every piece through `float`,
the first conversion failure raising (so `none`). -/
def parseFloats : List String → Option (List ℚ)
  | [] => some []
  | s :: rest =>
      match pyFloat s, parseFloats rest with
      | some v, some vs => some (v :: vs)
      | some _, none => none
      | none, _ => none

/-- Line 128: `params["EXTENT"]` (a `KeyError` when absent), then every
comma-separated piece through `float`. -/
def withExtent (query : ℚ → ℚ → QueryResult) (params : List (String × String)) :
    Option String → BuildResult
  | none =>
      { outcome := .error (.keyError "EXTENT"), connAcquired := false,
        connReleased := false, queried := none }
  | some extStr =>
      withFloats query params (parseFloats (pySplitComma extStr))

/-- The parameter-building part of `LandRegisterExtract.post`
(`src/server.py` 107-164): defaults, caller overlay, key upper-casing,
`LAYERS` / `OPACITIES` injection, extent centroid, spatial enrichment and
the `map0:` renames. -/
def build (layers : String) (query : ℚ → ℚ → QueryResult)
    (post : List (String × String)) : BuildResult :=
  withExtent query (baseParams layers post)
    (dlookup (baseParams layers post) "EXTENT")

/-! ## The print proxy (`src/server.py` 166-181) -/

/-- The upstream rendering engine's response as the proxy reads it: the
status code and the `content-type` header (`requests` raises a `KeyError`
when the header is absent, hence the option). -/
structure Upstream where
  status : Nat
  contentType : Option String
deriving DecidableEq

/-- The response the proxy returns to the caller. -/
structure ProxyResponse where
  status : Nat
  contentType : String
  contentDisposition : Option String
deriving DecidableEq

/-- Lines 171-179: the upstream status and content type are copied onto the
response; exactly for content type `application/pdf` a
`content-disposition: attachment; filename=<project>.<FORMAT lower-cased>`
header is added. -/
def forward (project : String) (params : List (String × String))
    (up : Upstream) : Except PyError ProxyResponse :=
  match up.contentType with
  | none => .error (.keyError "content-type")
  | some ct =>
      if ct = "application/pdf" then
        match dlookup params "FORMAT" with
        | none => .error (.keyError "FORMAT")
        | some fmt =>
            .ok { status := up.status, contentType := ct,
                  contentDisposition :=
                    some ("attachment; filename=" ++ project ++ "." ++ pyLower fmt) }
      else
        .ok { status := up.status, contentType := ct, contentDisposition := none }

/-! ## The template listing (`LandRegisterTemplates.get`, `src/server.py` 46-80)

The XML machinery the handler uses (`xml.dom.minidom`) is modelled on
element trees: `parseString` either fails (a not-well-formed document,
modelled as `none`) or yields the root element, and `getElementsByTagName`
returns the descendant elements with the given tag in document order.  The
`try`/`except` of lines 60-79 starts with an empty `layouts` list and
appends one entry per well-shaped `ComposerTemplate`, so a failure anywhere
inside the loop leaves the entries appended before it in place. -/

/-- An XML element: tag, attributes, child elements (text nodes play no role
in the handler's traversal and are omitted). -/
inductive XNode where
  | elem : String → List (String × String) → List XNode → XNode

/-- The tag of an element. -/
def tagOf : XNode → String
  | .elem t _ _ => t

/-- `e.getAttribute(a)`: the attribute's value, or `""` when absent
(minidom's behaviour). -/
def getAttr (a : String) : XNode → String
  | .elem _ attrs _ =>
      match dlookup attrs a with
      | some v => v
      | none => ""

/-- The descendant elements of the nodes of a forest carrying `tag`, in
document (pre-order) order. -/
def forestByTag (tag : String) : List XNode → List XNode
  | [] => []
  | XNode.elem t a cs :: rest =>
      (if t = tag then [XNode.elem t a cs] else []) ++
        forestByTag tag cs ++ forestByTag tag rest

/-- `e.getElementsByTagName(tag)` on an element: matching strict descendants
in document order. -/
def elemsByTag (tag : String) (n : XNode) : List XNode :=
  match n with
  | .elem _ _ cs => forestByTag tag cs

/-- `document.getElementsByTagName(tag)`: the root element itself is
included in the search. -/
def docElemsByTag (tag : String) (root : XNode) : List XNode :=
  forestByTag tag [root]

/-- One entry of the JSON array the handler returns (`src/server.py`
68-76). -/
structure TemplateEntry where
  name : String
  mapWidth : ℚ
  mapHeight : ℚ
  mapName : String
  isDefault : Bool
deriving DecidableEq

/-- The loop body of lines 66-77 for one `ComposerTemplate` element: `none`
when the element has no `ComposerMap` descendant (an `IndexError` at the
`[0]` subscript) or one of its `width` / `height` attributes does not
convert to `float` (a `ValueError`). -/
def parseTemplate (defaultLayout : String) (t : XNode) : Option TemplateEntry :=
  let name := getAttr "name" t
  match elemsByTag "ComposerMap" t with
  | [] => none
  | cm :: _ =>
      match pyFloat (getAttr "width" cm), pyFloat (getAttr "height" cm) with
      | some w, some h =>
          some { name := name, mapWidth := w, mapHeight := h,
                 mapName := getAttr "name" cm,
                 isDefault := name == defaultLayout }
      | some _, none => none
      | none, _ => none

/-- The `for template in ...` loop of lines 65-77 under the blanket
`except` of line 78: entries accumulate until the first failing template,
whose exception ends the loop with the accumulated list kept. -/
def capsProcess (defaultLayout : String) : List XNode → List TemplateEntry
  | [] => []
  | t :: ts =>
      match parseTemplate defaultLayout t with
      | some e => e :: capsProcess defaultLayout ts
      | none => []

/-- The whole `try` block of lines 60-79 on the outcome of
`parseString(req.text)`: a parse failure or a missing level of the
`WMS_Capabilities` / `Capability` / `ComposerTemplates` nesting (an
`IndexError` at the corresponding `[0]`) is swallowed with `layouts` still
empty. -/
def parseCapabilities (defaultLayout : String) : Option XNode → List TemplateEntry
  | none => []
  | some doc =>
      match docElemsByTag "WMS_Capabilities" doc with
      | [] => []
      | wms :: _ =>
          match elemsByTag "Capability" wms with
          | [] => []
          | cap :: _ =>
              match elemsByTag "ComposerTemplates" cap with
              | [] => []
              | cts :: _ =>
                  capsProcess defaultLayout (elemsByTag "ComposerTemplate" cts)

/-- A transport failure of the capabilities fetch (`requests.get`,
line 57). -/
inductive NetError where
  | connectionError : NetError
deriving DecidableEq

/-- The outcome of `requests.get(url, params=params)` at line 57: either a
raised transport error, or a response whose body either parses as XML
(`some root`) or does not (`none`). -/
inductive FetchResult where
  | transportError : FetchResult
  | response : Option XNode → FetchResult

/-- The whole of `LandRegisterTemplates.get` (`src/server.py` 46-80): the
fetch happens before the `try` block starts, so a transport error
propagates; everything after it is the lenient capabilities parse. -/
def listTemplates (defaultLayout : String) :
    FetchResult → Except NetError (List TemplateEntry)
  | .transportError => .error .connectionError
  | .response body => .ok (parseCapabilities defaultLayout body)

/-! ## Concrete fixtures used by individual claims -/

/-- A parameter of the dictionary a successful build forwarded. -/
def outcomeLookup (b : BuildResult) (key : String) : Option String :=
  match b.outcome with
  | .ok m => dlookup m key
  | .error _ => none

/-- A spatial query that always finds no parcel. -/
def queryNoRow : ℚ → ℚ → QueryResult := fun _ _ => .ok none

/-- A spatial query that always raises. -/
def queryRaises : ℚ → ℚ → QueryResult := fun _ _ => .raises

/-- A capabilities document whose first `ComposerTemplate` is complete and
whose second one has no `ComposerMap` child: the loop of `src/server.py`
65-77 appends the first entry and then hits an `IndexError`. -/
def c2doc : XNode :=
  .elem "WMS_Capabilities" []
    [.elem "Capability" []
      [.elem "ComposerTemplates" []
        [.elem "ComposerTemplate" [("name", "A4-Hoch")]
          [.elem "ComposerMap" [("width", "210"), ("height", "297"), ("name", "map0")] []],
         .elem "ComposerTemplate" [("name", "A3-Quer")] []]]]

/-- A well-shaped `ComposerMap` element. -/
def c8map1 : XNode :=
  .elem "ComposerMap" [("width", "210"), ("height", "297"), ("name", "map0")] []

/-- A second well-shaped `ComposerMap` element. -/
def c8map2 : XNode :=
  .elem "ComposerMap" [("width", "420"), ("height", "297"), ("name", "map0")] []

/-- A well-shaped `ComposerTemplate` whose name is the configured default. -/
def c8t1 : XNode := .elem "ComposerTemplate" [("name", "A4-Hoch")] [c8map1]

/-- A second well-shaped `ComposerTemplate`. -/
def c8t2 : XNode := .elem "ComposerTemplate" [("name", "A3-Quer")] [c8map2]

/-- The `ComposerTemplates` container of the two templates. -/
def c8cts : XNode := .elem "ComposerTemplates" [] [c8t1, c8t2]

/-- The `Capability` level of the well-formed fixture document. -/
def c8cap : XNode := .elem "Capability" [] [c8cts]

/-- A well-formed capabilities document with two complete templates. -/
def c8doc : XNode := .elem "WMS_Capabilities" [] [c8cap]

/-! ## Lemmas about the dictionary model -/

theorem data_asString (l : List Char) : l.asString.data = l := rfl

theorem dlookup_dinsert (m : List (String × String)) (k v key : String) :
    dlookup (dinsert m k v) key = if k = key then some v else dlookup m key := by
  induction m with
  | nil => simp [dinsert, dlookup]
  | cons hd tl ih =>
      obtain ⟨k0, v0⟩ := hd
      by_cases h1 : k0 = k
      · subst h1
        have he : dinsert ((k0, v0) :: tl) k0 v = (k0, v) :: tl := by simp [dinsert]
        rw [he]
        by_cases h2 : k0 = key <;> simp [dlookup, h2]
      · simp only [dinsert, if_neg h1, dlookup, ih]
        by_cases h2 : k0 = key
        · have h3 : k ≠ key := fun e => h1 (h2.trans e.symm)
          simp [h2, h3]
        · simp [h2]

theorem dlookup_dinsert_self (m : List (String × String)) (k v : String) :
    dlookup (dinsert m k v) k = some v := by
  simp [dlookup_dinsert]

theorem dlookup_dinsert_ne (m : List (String × String)) (k v key : String)
    (h : k ≠ key) : dlookup (dinsert m k v) key = dlookup m key := by
  simp [dlookup_dinsert, h]

theorem dlookup_ddel_ne (m : List (String × String)) (k key : String)
    (h : key ≠ k) : dlookup (ddel m k) key = dlookup m key := by
  induction m with
  | nil => simp [ddel]
  | cons hd tl ih =>
      obtain ⟨k0, v0⟩ := hd
      by_cases h1 : k0 = k
      · subst h1
        simp [ddel, dlookup, Ne.symm h]
      · simp [ddel, h1, dlookup, ih]

theorem dlookup_eq_none_of_not_mem (m : List (String × String)) (key : String)
    (h : key ∉ m.map Prod.fst) : dlookup m key = none := by
  induction m with
  | nil => rfl
  | cons hd tl ih =>
      obtain ⟨k0, v0⟩ := hd
      simp only [List.map_cons, List.mem_cons] at h
      push_neg at h
      simp [dlookup, Ne.symm h.1, ih h.2]

theorem dlookup_ddel_self (m : List (String × String)) (k : String)
    (h : keysNodup m) : dlookup (ddel m k) k = none := by
  induction m with
  | nil => rfl
  | cons hd tl ih =>
      obtain ⟨k0, v0⟩ := hd
      simp only [keysNodup, List.map_cons, List.nodup_cons] at h
      by_cases h1 : k0 = k
      · subst h1
        have he : ddel ((k0, v0) :: tl) k0 = tl := by simp [ddel]
        rw [he]
        exact dlookup_eq_none_of_not_mem tl k0 h.1
      · simp [ddel, h1, dlookup, ih h.2]

theorem mem_keys_dinsert (m : List (String × String)) (k v key : String) :
    key ∈ (dinsert m k v).map Prod.fst ↔ key = k ∨ key ∈ m.map Prod.fst := by
  induction m with
  | nil => simp [dinsert]
  | cons hd tl ih =>
      obtain ⟨k0, v0⟩ := hd
      by_cases h1 : k0 = k
      · subst h1
        have he : dinsert ((k0, v0) :: tl) k0 v = (k0, v) :: tl := by simp [dinsert]
        rw [he]
        simp only [List.map_cons, List.mem_cons]
        tauto
      · simp only [dinsert, if_neg h1, List.map_cons, List.mem_cons, ih]
        tauto

theorem keysNodup_dinsert (m : List (String × String)) (k v : String)
    (h : keysNodup m) : keysNodup (dinsert m k v) := by
  induction m with
  | nil => simp [dinsert, keysNodup]
  | cons hd tl ih =>
      obtain ⟨k0, v0⟩ := hd
      simp only [keysNodup, List.map_cons, List.nodup_cons] at h
      by_cases h1 : k0 = k
      · subst h1
        have he : dinsert ((k0, v0) :: tl) k0 v = (k0, v) :: tl := by simp [dinsert]
        rw [he]
        simp only [keysNodup, List.map_cons, List.nodup_cons]
        exact h
      · have h2 := ih h.2
        simp only [dinsert, if_neg h1, keysNodup, List.map_cons, List.nodup_cons]
        refine ⟨fun hmem => ?_, h2⟩
        rcases (mem_keys_dinsert tl k v k0).1 hmem with e | hmem2
        · exact h1 e
        · exact h.1 hmem2

theorem mem_keys_ddel (m : List (String × String)) (k key : String)
    (h : key ∈ (ddel m k).map Prod.fst) : key ∈ m.map Prod.fst := by
  induction m with
  | nil => simp [ddel] at h
  | cons hd tl ih =>
      obtain ⟨k0, v0⟩ := hd
      by_cases h1 : k0 = k
      · subst h1
        have he : ddel ((k0, v0) :: tl) k0 = tl := by simp [ddel]
        rw [he] at h
        simp only [List.map_cons, List.mem_cons]
        exact Or.inr h
      · simp only [ddel, if_neg h1, List.map_cons, List.mem_cons] at h
        rcases h with e | h2
        · simp [e]
        · simp [List.mem_cons, ih h2]

theorem keysNodup_ddel (m : List (String × String)) (k : String)
    (h : keysNodup m) : keysNodup (ddel m k) := by
  induction m with
  | nil => simpa [ddel] using h
  | cons hd tl ih =>
      obtain ⟨k0, v0⟩ := hd
      simp only [keysNodup, List.map_cons, List.nodup_cons] at h
      by_cases h1 : k0 = k
      · subst h1
        have he : ddel ((k0, v0) :: tl) k0 = tl := by simp [ddel]
        rw [he]
        exact h.2
      · simp only [ddel, if_neg h1, keysNodup, List.map_cons, List.nodup_cons]
        exact ⟨fun hmem => h.1 (mem_keys_ddel tl k k0 hmem), ih h.2⟩

theorem keysNodup_foldl_dinsert {α : Type} (f g : α → String) (l : List α)
    (m : List (String × String)) (h : keysNodup m) :
    keysNodup (l.foldl (fun acc x => dinsert acc (f x) (g x)) m) := by
  induction l generalizing m with
  | nil => exact h
  | cons x xs ih => exact ih _ (keysNodup_dinsert m (f x) (g x) h)

theorem keysNodup_mergedParams (post : List (String × String)) :
    keysNodup (mergedParams post) := by
  unfold mergedParams upperKeys
  exact keysNodup_foldl_dinsert _ _ _ [] (by simp [keysNodup])

theorem keysNodup_baseParams (layers : String) (post : List (String × String)) :
    keysNodup (baseParams layers post) := by
  unfold baseParams
  exact keysNodup_dinsert _ _ _ (keysNodup_dinsert _ _ _ (keysNodup_mergedParams post))

theorem keysNodup_enrich (row : Option ParcelRow) (m : List (String × String))
    (h : keysNodup m) : keysNodup (enrich row m) := by
  cases row with
  | none => exact h
  | some r =>
      exact keysNodup_dinsert _ _ _ (keysNodup_dinsert _ _ _ (keysNodup_dinsert _ _ _
        (keysNodup_dinsert _ _ _ (keysNodup_dinsert _ _ _ h))))

/-! ## Lemmas about the handler's building blocks -/

theorem dlookup_rename_ne (m : List (String × String)) (old new v key : String)
    (h1 : key ≠ old) (h2 : key ≠ new) :
    dlookup (ddel (dinsert m new v) old) key = dlookup m key := by
  rw [dlookup_ddel_ne _ _ _ h1, dlookup_dinsert_ne _ _ _ _ (Ne.symm h2)]

theorem dlookup_rename_new (m : List (String × String)) (old new v : String)
    (h : new ≠ old) :
    dlookup (ddel (dinsert m new v) old) new = some v := by
  rw [dlookup_ddel_ne _ _ _ h, dlookup_dinsert_self]

theorem dlookup_rename_old (m : List (String × String)) (old new v : String)
    (h : keysNodup m) :
    dlookup (ddel (dinsert m new v) old) old = none :=
  dlookup_ddel_self _ _ (keysNodup_dinsert _ _ _ h)

theorem keysNodup_rename (m : List (String × String)) (old new v : String)
    (h : keysNodup m) : keysNodup (ddel (dinsert m new v) old) :=
  keysNodup_ddel _ _ (keysNodup_dinsert _ _ _ h)

theorem dlookup_renameIfPresent_ne (m : List (String × String))
    (old new key : String) (h1 : key ≠ old) (h2 : key ≠ new) :
    dlookup (renameIfPresent m old new) key = dlookup m key := by
  unfold renameIfPresent
  cases hv : dlookup m old with
  | none => rfl
  | some v => exact dlookup_rename_ne m old new v key h1 h2

theorem keysNodup_renameIfPresent (m : List (String × String))
    (old new : String) (h : keysNodup m) :
    keysNodup (renameIfPresent m old new) := by
  unfold renameIfPresent
  cases hv : dlookup m old with
  | none => exact h
  | some v => exact keysNodup_rename m old new v h

theorem dlookup_baseParams_ne (layers : String) (post : List (String × String))
    (key : String) (h1 : key ≠ "LAYERS") (h2 : key ≠ "OPACITIES") :
    dlookup (baseParams layers post) key = dlookup (mergedParams post) key := by
  unfold baseParams
  rw [dlookup_dinsert_ne _ _ _ _ (Ne.symm h2), dlookup_dinsert_ne _ _ _ _ (Ne.symm h1)]

theorem dlookup_enrich_ne (row : Option ParcelRow) (m : List (String × String))
    (key : String)
    (h : key ∉ ["NFGEOMETER", "LIEFERDATUM", "ANSCHRIFT", "KONTAKT", "GEMEINDE"]) :
    dlookup (enrich row m) key = dlookup m key := by
  simp only [List.mem_cons, List.mem_singleton] at h
  push_neg at h
  obtain ⟨n1, n2, n3, n4, n5, -⟩ := h
  cases row with
  | none => rfl
  | some r =>
      unfold enrich
      rw [dlookup_dinsert_ne _ _ _ _ (Ne.symm n5), dlookup_dinsert_ne _ _ _ _ (Ne.symm n4),
        dlookup_dinsert_ne _ _ _ _ (Ne.symm n3), dlookup_dinsert_ne _ _ _ _ (Ne.symm n2),
        dlookup_dinsert_ne _ _ _ _ (Ne.symm n1)]

theorem upChar_ne_lower_m (c : Char) : upChar c ≠ 'm' := by
  unfold upChar
  split
  all_goals first | decide | (intro he; subst he; simp_all)

theorem pyUpper_ne_m_head (s : String) (l : List Char) :
    pyUpper s ≠ ('m' :: l).asString := by
  unfold pyUpper
  intro h
  have hd : s.data.map upChar = 'm' :: l := by
    have := congrArg String.data h
    rwa [data_asString, data_asString] at this
  rcases hs : s.data with - | ⟨c, cs⟩
  · rw [hs] at hd
    simp at hd
  · rw [hs] at hd
    simp only [List.map_cons, List.cons.injEq] at hd
    exact upChar_ne_lower_m c hd.1

theorem dlookup_foldl_upper_none (l : List (String × String))
    (acc : List (String × String)) (key : String)
    (hacc : dlookup acc key = none) (hkey : ∀ s, pyUpper s ≠ key) :
    dlookup (l.foldl (fun acc kv => dinsert acc (pyUpper kv.1) kv.2) acc) key = none := by
  induction l generalizing acc with
  | nil => exact hacc
  | cons x xs ih =>
      exact ih _ (by rw [dlookup_dinsert_ne _ _ _ _ (hkey x.1)]; exact hacc)

theorem dlookup_mergedParams_not_upper (post : List (String × String))
    (key : String) (hkey : ∀ s, pyUpper s ≠ key) :
    dlookup (mergedParams post) key = none := by
  unfold mergedParams upperKeys
  exact dlookup_foldl_upper_none _ [] key rfl hkey

theorem renameKey_some (m : List (String × String)) (old new v : String)
    (h : dlookup m old = some v) :
    renameKey m old new = .ok (ddel (dinsert m new v) old) := by
  unfold renameKey
  rw [h]

theorem renameKey_none (m : List (String × String)) (old new : String)
    (h : dlookup m old = none) :
    renameKey m old new = .error (.keyError old) := by
  unfold renameKey
  rw [h]

theorem finishParams_extent_missing (m : List (String × String))
    (hE : dlookup m "EXTENT" = none) :
    finishParams m = .error (.keyError "EXTENT") := by
  simp only [finishParams, renameKey, hE]

theorem finishParams_scale_missing (m : List (String × String)) (ve : String)
    (hE : dlookup m "EXTENT" = some ve) (hS : dlookup m "SCALE" = none) :
    finishParams m = .error (.keyError "SCALE") := by
  have hS1 : dlookup (ddel (dinsert m "map0:EXTENT" ve) "EXTENT") "SCALE" = none := by
    rw [dlookup_rename_ne _ _ _ _ _ (by decide) (by decide)]
    exact hS
  simp only [finishParams, renameKey, hE, hS1]

theorem finishParams_rotation_missing (m : List (String × String)) (ve vs : String)
    (hE : dlookup m "EXTENT" = some ve) (hS : dlookup m "SCALE" = some vs)
    (hR : dlookup m "ROTATION" = none) :
    finishParams m = .error (.keyError "ROTATION") := by
  have hS1 : dlookup (ddel (dinsert m "map0:EXTENT" ve) "EXTENT") "SCALE" = some vs := by
    rw [dlookup_rename_ne _ _ _ _ _ (by decide) (by decide)]
    exact hS
  have hR1 : dlookup (ddel (dinsert (ddel (dinsert m "map0:EXTENT" ve) "EXTENT")
      "map0:SCALE" vs) "SCALE") "ROTATION" = none := by
    rw [dlookup_rename_ne _ _ _ _ _ (by decide) (by decide),
        dlookup_rename_ne _ _ _ _ _ (by decide) (by decide)]
    exact hR
  simp only [finishParams, renameKey, hE, hS1, hR1]

theorem finishParams_eq (m : List (String × String)) (ve vs vr : String)
    (hE : dlookup m "EXTENT" = some ve) (hS : dlookup m "SCALE" = some vs)
    (hR : dlookup m "ROTATION" = some vr) :
    finishParams m = .ok (renameIfPresent (renameIfPresent
      (ddel (dinsert (ddel (dinsert (ddel (dinsert m "map0:EXTENT" ve) "EXTENT")
        "map0:SCALE" vs) "SCALE") "map0:ROTATION" vr) "ROTATION")
      "GRID_INTERVAL_X" "map0:GRID_INTERVAL_X")
      "GRID_INTERVAL_Y" "map0:GRID_INTERVAL_Y") := by
  have hS1 : dlookup (ddel (dinsert m "map0:EXTENT" ve) "EXTENT") "SCALE" = some vs := by
    rw [dlookup_rename_ne _ _ _ _ _ (by decide) (by decide)]
    exact hS
  have hR1 : dlookup (ddel (dinsert (ddel (dinsert m "map0:EXTENT" ve) "EXTENT")
      "map0:SCALE" vs) "SCALE") "ROTATION" = some vr := by
    rw [dlookup_rename_ne _ _ _ _ _ (by decide) (by decide),
        dlookup_rename_ne _ _ _ _ _ (by decide) (by decide)]
    exact hR
  simp only [finishParams, renameKey, hE, hS1, hR1]

theorem finishParams_ne_queryError (m : List (String × String)) :
    finishParams m ≠ .error .queryError := by
  rcases h1 : dlookup m "EXTENT" with - | ve
  · simp [finishParams_extent_missing m h1]
  · rcases h2 : dlookup m "SCALE" with - | vs
    · simp [finishParams_scale_missing m ve h1 h2]
    · rcases h3 : dlookup m "ROTATION" with - | vr
      · simp [finishParams_rotation_missing m ve vs h1 h2 h3]
      · simp [finishParams_eq m ve vs vr h1 h2 h3]

theorem build_ok_elim (layers : String) (query : ℚ → ℚ → QueryResult)
    (post : List (String × String)) (res : List (String × String))
    (h : (build layers query post).outcome = .ok res) :
    ∃ row : Option ParcelRow,
      finishParams (enrich row (baseParams layers post)) = .ok res := by
  unfold build at h
  rcases hE : dlookup (baseParams layers post) "EXTENT" with - | extStr
  · rw [hE] at h
    simp [withExtent] at h
  · rw [hE] at h
    simp only [withExtent] at h
    rcases hP : parseFloats (pySplitComma extStr) with - | fs
    · rw [hP] at h
      simp [withFloats] at h
    · rw [hP] at h
      rcases fs with - | ⟨e0, - | ⟨e1, - | ⟨e2, - | ⟨e3, rest⟩⟩⟩⟩
      · simp [withFloats] at h
      · simp [withFloats] at h
      · simp [withFloats] at h
      · simp [withFloats] at h
      · simp only [withFloats] at h
        rcases hq : query ((1 / 2 : ℚ) * (e0 + e2)) ((1 / 2 : ℚ) * (e1 + e3))
          with row | -
        · simp only [withQuery, hq] at h
          exact ⟨row, h⟩
        · simp only [withQuery, hq] at h
          exact absurd h (by simp)

/-! ## Lemmas about comma splitting and joining -/

theorem splitCommaCh_ne_nil (l : List Char) : splitCommaCh l ≠ [] := by
  induction l with
  | nil => simp [splitCommaCh]
  | cons c cs ih =>
      simp only [splitCommaCh]
      by_cases h : c = ','
      · simp [h]
      · simp only [h, if_false]
        rcases hs : splitCommaCh cs with - | ⟨p, ps⟩
        · simp
        · simp

theorem splitCommaCh_append (p rest : List Char) (h : ',' ∉ p) :
    splitCommaCh (p ++ ',' :: rest) = p :: splitCommaCh rest := by
  induction p with
  | nil => simp [splitCommaCh]
  | cons c p ih =>
      simp only [List.mem_cons] at h
      push_neg at h
      have hc : c ≠ ',' := Ne.symm h.1
      simp only [List.cons_append, splitCommaCh, if_neg hc, List.append_eq, ih h.2]

theorem join_replicate_255 (n : Nat) :
    splitCommaCh (joinCommaCh (List.replicate (n + 1) ['2', '5', '5'])) =
      List.replicate (n + 1) ['2', '5', '5'] := by
  induction n with
  | zero => decide
  | succ n ih =>
      have h3 : List.replicate (n + 1) ['2', '5', '5'] =
          ['2', '5', '5'] :: List.replicate n ['2', '5', '5'] := by
        simp [List.replicate_succ]
      have h2 : List.replicate (n + 1 + 1) ['2', '5', '5'] =
          ['2', '5', '5'] :: ['2', '5', '5'] :: List.replicate n ['2', '5', '5'] := by
        rw [List.replicate_succ, h3]
      rw [h3] at ih
      rw [h2]
      simp only [joinCommaCh]
      rw [splitCommaCh_append _ _ (by decide), ih]

theorem map_const_replicate {α β : Type} (l : List α) (b : β) :
    l.map (fun _ => b) = List.replicate l.length b := by
  induction l <;> simp_all [List.replicate_succ]

theorem pySplit_opacities (layers : String) :
    pySplitComma (opacitiesFor layers) =
      List.replicate (pySplitComma layers).length "255" := by
  obtain ⟨n, hn⟩ : ∃ n, (splitCommaCh layers.data).length = n + 1 := by
    rcases hs : splitCommaCh layers.data with - | ⟨p, ps⟩
    · exact absurd hs (splitCommaCh_ne_nil _)
    · exact ⟨ps.length, rfl⟩
  have hN : (pySplitComma layers).length = n + 1 := by
    unfold pySplitComma
    rw [List.length_map, hn]
  have e1 : (pySplitComma layers).map (fun _ => ("255" : String)) =
      List.replicate (n + 1) "255" := by
    rw [map_const_replicate, hN]
  have e2 : (List.replicate (n + 1) ("255" : String)).map String.data =
      List.replicate (n + 1) ['2', '5', '5'] := by
    rw [List.map_replicate]
  unfold opacitiesFor pyJoinComma
  rw [e1, e2]
  unfold pySplitComma
  rw [data_asString, join_replicate_255, List.map_replicate, List.length_map, hn]
  rfl

/-! ## Lemmas about the template listing -/

theorem parseTemplate_fields (d : String) (t : XNode) (e : TemplateEntry)
    (h : parseTemplate d t = some e) :
    e.name = getAttr "name" t ∧
    (∃ cm tail, elemsByTag "ComposerMap" t = cm :: tail ∧
       e.mapName = getAttr "name" cm ∧
       pyFloat (getAttr "width" cm) = some e.mapWidth ∧
       pyFloat (getAttr "height" cm) = some e.mapHeight) ∧
    e.isDefault = (getAttr "name" t == d) := by
  rcases hcm : elemsByTag "ComposerMap" t with - | ⟨cm, tail⟩
  · simp [parseTemplate, hcm] at h
  · rcases hw : pyFloat (getAttr "width" cm) with - | w
    · simp [parseTemplate, hcm, hw] at h
    · rcases hh : pyFloat (getAttr "height" cm) with - | ht
      · simp [parseTemplate, hcm, hw, hh] at h
      · simp only [parseTemplate, hcm, hw, hh, Option.some.injEq] at h
        subst h
        exact ⟨rfl, ⟨cm, tail, rfl, rfl, hw, hh⟩, rfl⟩

theorem capsProcess_takeWhile (d : String) (ts : List XNode) :
    capsProcess d ts =
      List.filterMap (parseTemplate d)
        (ts.takeWhile fun t => (parseTemplate d t).isSome) := by
  induction ts with
  | nil => rfl
  | cons t ts ih =>
      rcases hp : parseTemplate d t with - | e
      · simp [capsProcess, hp, List.takeWhile_cons]
      · simp [capsProcess, hp, List.takeWhile_cons, ih]

theorem capsProcess_all_some (d : String) (ts : List XNode)
    (h : ∀ t ∈ ts, (parseTemplate d t).isSome = true) :
    capsProcess d ts = ts.filterMap (parseTemplate d) := by
  induction ts with
  | nil => rfl
  | cons t ts ih =>
      obtain ⟨e, he⟩ := Option.isSome_iff_exists.1 (h t (by simp))
      simp [capsProcess, he, List.filterMap_cons,
        ih (fun u hu => h u (by simp [hu]))]

theorem length_filterMap_all_some {α β : Type} (f : α → Option β) (l : List α)
    (h : ∀ a ∈ l, (f a).isSome = true) :
    (l.filterMap f).length = l.length := by
  induction l with
  | nil => rfl
  | cons a l ih =>
      obtain ⟨b, hb⟩ := Option.isSome_iff_exists.1 (h a (by simp))
      simp [List.filterMap_cons, hb, ih (fun u hu => h u (by simp [hu]))]

theorem countP_capsProcess (d : String) (ts : List XNode)
    (h : ∀ t ∈ ts, (parseTemplate d t).isSome = true) :
    (capsProcess d ts).countP (fun e => e.isDefault) =
      ts.countP (fun t => getAttr "name" t == d) := by
  induction ts with
  | nil => rfl
  | cons t ts ih =>
      obtain ⟨e, he⟩ := Option.isSome_iff_exists.1 (h t (by simp))
      have hf := parseTemplate_fields d t e he
      simp only [capsProcess, he, List.countP_cons]
      rw [ih (fun u hu => h u (by simp [hu]))]
      simp [hf.2.2]

theorem countP_nodup_names (d : String) (names : List String)
    (h : names.Nodup) :
    names.countP (fun s => s == d) =
      if names.any (fun s => s == d) then 1 else 0 := by
  induction names with
  | nil => rfl
  | cons s names ih =>
      simp only [List.nodup_cons] at h
      by_cases hs : s = d
      · subst hs
        have h0 : names.countP (fun x => x == s) = 0 := by
          rw [List.countP_eq_zero]
          intro a ha
          simp only [beq_iff_eq]
          exact fun e => h.1 (e ▸ ha)
        simp [List.countP_cons, List.any_cons, h0]
      · have hb : (s == d) = false := beq_eq_false_iff_ne.2 hs
        simp [List.countP_cons, List.any_cons, hb, ih h.2]

theorem build_ok_result (layers : String) (query : ℚ → ℚ → QueryResult)
    (post : List (String × String)) (res : List (String × String))
    (h : (build layers query post).outcome = .ok res) :
    ∃ (row : Option ParcelRow) (ve vs vr : String),
      dlookup (enrich row (baseParams layers post)) "EXTENT" = some ve ∧
      dlookup (enrich row (baseParams layers post)) "SCALE" = some vs ∧
      dlookup (enrich row (baseParams layers post)) "ROTATION" = some vr ∧
      res = renameIfPresent (renameIfPresent
        (ddel (dinsert (ddel (dinsert (ddel (dinsert
          (enrich row (baseParams layers post)) "map0:EXTENT" ve) "EXTENT")
          "map0:SCALE" vs) "SCALE") "map0:ROTATION" vr) "ROTATION")
        "GRID_INTERVAL_X" "map0:GRID_INTERVAL_X")
        "GRID_INTERVAL_Y" "map0:GRID_INTERVAL_Y" := by
  obtain ⟨row, hfin⟩ := build_ok_elim layers query post res h
  rcases hE : dlookup (enrich row (baseParams layers post)) "EXTENT" with - | ve
  · rw [finishParams_extent_missing _ hE] at hfin
    exact absurd hfin (by simp)
  · rcases hS : dlookup (enrich row (baseParams layers post)) "SCALE" with - | vs
    · rw [finishParams_scale_missing _ ve hE hS] at hfin
      exact absurd hfin (by simp)
    · rcases hR : dlookup (enrich row (baseParams layers post)) "ROTATION" with - | vr
      · rw [finishParams_rotation_missing _ ve vs hE hS hR] at hfin
        exact absurd hfin (by simp)
      · rw [finishParams_eq _ ve vs vr hE hS hR] at hfin
        simp only [Except.ok.injEq] at hfin
        exact ⟨row, ve, vs, vr, hE, hS, hR, hfin.symm⟩

theorem dlookup_finish_tower_ne (m : List (String × String)) (ve vs vr key : String)
    (h : key ∉ ["EXTENT", "SCALE", "ROTATION", "GRID_INTERVAL_X", "GRID_INTERVAL_Y",
      "map0:EXTENT", "map0:SCALE", "map0:ROTATION",
      "map0:GRID_INTERVAL_X", "map0:GRID_INTERVAL_Y"]) :
    dlookup (renameIfPresent (renameIfPresent
        (ddel (dinsert (ddel (dinsert (ddel (dinsert m "map0:EXTENT" ve) "EXTENT")
          "map0:SCALE" vs) "SCALE") "map0:ROTATION" vr) "ROTATION")
        "GRID_INTERVAL_X" "map0:GRID_INTERVAL_X")
        "GRID_INTERVAL_Y" "map0:GRID_INTERVAL_Y") key = dlookup m key := by
  simp only [List.mem_cons, List.mem_singleton] at h
  push_neg at h
  obtain ⟨n1, n2, n3, n4, n5, n6, n7, n8, n9, n10, -⟩ := h
  rw [dlookup_renameIfPresent_ne _ _ _ _ n5 n10,
      dlookup_renameIfPresent_ne _ _ _ _ n4 n9,
      dlookup_rename_ne _ _ _ _ _ n3 n8,
      dlookup_rename_ne _ _ _ _ _ n2 n7,
      dlookup_rename_ne _ _ _ _ _ n1 n6]

theorem any_map_beq {α : Type} (f : α → String) (d : String) (l : List α) :
    (l.map f).any (fun s => s == d) = l.any (fun t => f t == d) := by
  induction l with
  | nil => rfl
  | cons t ts ih => simp [List.any_cons, ih]

theorem pyUpper_ne_mapKey (target : String) (l : List Char)
    (ht : target = ('m' :: l).asString) (s : String) : pyUpper s ≠ target := by
  rw [ht]
  exact pyUpper_ne_m_head s l

theorem pySplitComma_length_pos (s : String) : 1 ≤ (pySplitComma s).length := by
  unfold pySplitComma
  rw [List.length_map]
  rcases hs : splitCommaCh s.data with - | ⟨p, ps⟩
  · exact absurd hs (splitCommaCh_ne_nil _)
  · simp

theorem tower_lookups (m : List (String × String)) (ve vs vr : String)
    (hnm : keysNodup m)
    (hGX : dlookup m "map0:GRID_INTERVAL_X" = none)
    (hGY : dlookup m "map0:GRID_INTERVAL_Y" = none) :
    dlookup (renameIfPresent (renameIfPresent
        (ddel (dinsert (ddel (dinsert (ddel (dinsert m "map0:EXTENT" ve) "EXTENT")
          "map0:SCALE" vs) "SCALE") "map0:ROTATION" vr) "ROTATION")
        "GRID_INTERVAL_X" "map0:GRID_INTERVAL_X")
        "GRID_INTERVAL_Y" "map0:GRID_INTERVAL_Y") "map0:EXTENT" = some ve ∧
    dlookup (renameIfPresent (renameIfPresent
        (ddel (dinsert (ddel (dinsert (ddel (dinsert m "map0:EXTENT" ve) "EXTENT")
          "map0:SCALE" vs) "SCALE") "map0:ROTATION" vr) "ROTATION")
        "GRID_INTERVAL_X" "map0:GRID_INTERVAL_X")
        "GRID_INTERVAL_Y" "map0:GRID_INTERVAL_Y") "EXTENT" = none ∧
    dlookup (renameIfPresent (renameIfPresent
        (ddel (dinsert (ddel (dinsert (ddel (dinsert m "map0:EXTENT" ve) "EXTENT")
          "map0:SCALE" vs) "SCALE") "map0:ROTATION" vr) "ROTATION")
        "GRID_INTERVAL_X" "map0:GRID_INTERVAL_X")
        "GRID_INTERVAL_Y" "map0:GRID_INTERVAL_Y") "map0:SCALE" = some vs ∧
    dlookup (renameIfPresent (renameIfPresent
        (ddel (dinsert (ddel (dinsert (ddel (dinsert m "map0:EXTENT" ve) "EXTENT")
          "map0:SCALE" vs) "SCALE") "map0:ROTATION" vr) "ROTATION")
        "GRID_INTERVAL_X" "map0:GRID_INTERVAL_X")
        "GRID_INTERVAL_Y" "map0:GRID_INTERVAL_Y") "SCALE" = none ∧
    dlookup (renameIfPresent (renameIfPresent
        (ddel (dinsert (ddel (dinsert (ddel (dinsert m "map0:EXTENT" ve) "EXTENT")
          "map0:SCALE" vs) "SCALE") "map0:ROTATION" vr) "ROTATION")
        "GRID_INTERVAL_X" "map0:GRID_INTERVAL_X")
        "GRID_INTERVAL_Y" "map0:GRID_INTERVAL_Y") "map0:ROTATION" = some vr ∧
    dlookup (renameIfPresent (renameIfPresent
        (ddel (dinsert (ddel (dinsert (ddel (dinsert m "map0:EXTENT" ve) "EXTENT")
          "map0:SCALE" vs) "SCALE") "map0:ROTATION" vr) "ROTATION")
        "GRID_INTERVAL_X" "map0:GRID_INTERVAL_X")
        "GRID_INTERVAL_Y" "map0:GRID_INTERVAL_Y") "ROTATION" = none ∧
    dlookup (renameIfPresent (renameIfPresent
        (ddel (dinsert (ddel (dinsert (ddel (dinsert m "map0:EXTENT" ve) "EXTENT")
          "map0:SCALE" vs) "SCALE") "map0:ROTATION" vr) "ROTATION")
        "GRID_INTERVAL_X" "map0:GRID_INTERVAL_X")
        "GRID_INTERVAL_Y" "map0:GRID_INTERVAL_Y") "map0:GRID_INTERVAL_X" =
      dlookup m "GRID_INTERVAL_X" ∧
    dlookup (renameIfPresent (renameIfPresent
        (ddel (dinsert (ddel (dinsert (ddel (dinsert m "map0:EXTENT" ve) "EXTENT")
          "map0:SCALE" vs) "SCALE") "map0:ROTATION" vr) "ROTATION")
        "GRID_INTERVAL_X" "map0:GRID_INTERVAL_X")
        "GRID_INTERVAL_Y" "map0:GRID_INTERVAL_Y") "GRID_INTERVAL_X" = none ∧
    dlookup (renameIfPresent (renameIfPresent
        (ddel (dinsert (ddel (dinsert (ddel (dinsert m "map0:EXTENT" ve) "EXTENT")
          "map0:SCALE" vs) "SCALE") "map0:ROTATION" vr) "ROTATION")
        "GRID_INTERVAL_X" "map0:GRID_INTERVAL_X")
        "GRID_INTERVAL_Y" "map0:GRID_INTERVAL_Y") "map0:GRID_INTERVAL_Y" =
      dlookup m "GRID_INTERVAL_Y" ∧
    dlookup (renameIfPresent (renameIfPresent
        (ddel (dinsert (ddel (dinsert (ddel (dinsert m "map0:EXTENT" ve) "EXTENT")
          "map0:SCALE" vs) "SCALE") "map0:ROTATION" vr) "ROTATION")
        "GRID_INTERVAL_X" "map0:GRID_INTERVAL_X")
        "GRID_INTERVAL_Y" "map0:GRID_INTERVAL_Y") "GRID_INTERVAL_Y" = none := by
  set p1 := ddel (dinsert m "map0:EXTENT" ve) "EXTENT" with hp1
  set p2 := ddel (dinsert p1 "map0:SCALE" vs) "SCALE" with hp2
  set p3 := ddel (dinsert p2 "map0:ROTATION" vr) "ROTATION" with hp3
  set p4 := renameIfPresent p3 "GRID_INTERVAL_X" "map0:GRID_INTERVAL_X" with hp4
  set p5 := renameIfPresent p4 "GRID_INTERVAL_Y" "map0:GRID_INTERVAL_Y" with hp5
  have np1 : keysNodup p1 := keysNodup_rename _ _ _ _ hnm
  have np2 : keysNodup p2 := keysNodup_rename _ _ _ _ np1
  have np3 : keysNodup p3 := keysNodup_rename _ _ _ _ np2
  have np4 : keysNodup p4 := keysNodup_renameIfPresent _ _ _ np3
  have l1n : ∀ key, key ≠ "EXTENT" → key ≠ "map0:EXTENT" →
      dlookup p1 key = dlookup m key := fun key h1 h2 => by
    rw [hp1]
    exact dlookup_rename_ne m _ _ _ _ h1 h2
  have l2n : ∀ key, key ≠ "SCALE" → key ≠ "map0:SCALE" →
      dlookup p2 key = dlookup p1 key := fun key h1 h2 => by
    rw [hp2]
    exact dlookup_rename_ne p1 _ _ _ _ h1 h2
  have l3n : ∀ key, key ≠ "ROTATION" → key ≠ "map0:ROTATION" →
      dlookup p3 key = dlookup p2 key := fun key h1 h2 => by
    rw [hp3]
    exact dlookup_rename_ne p2 _ _ _ _ h1 h2
  have l4n : ∀ key, key ≠ "GRID_INTERVAL_X" → key ≠ "map0:GRID_INTERVAL_X" →
      dlookup p4 key = dlookup p3 key := fun key h1 h2 => by
    rw [hp4]
    exact dlookup_renameIfPresent_ne p3 _ _ _ h1 h2
  have l5n : ∀ key, key ≠ "GRID_INTERVAL_Y" → key ≠ "map0:GRID_INTERVAL_Y" →
      dlookup p5 key = dlookup p4 key := fun key h1 h2 => by
    rw [hp5]
    exact dlookup_renameIfPresent_ne p4 _ _ _ h1 h2
  have hgx3 : dlookup p3 "GRID_INTERVAL_X" = dlookup m "GRID_INTERVAL_X" := by
    rw [l3n _ (by decide) (by decide), l2n _ (by decide) (by decide),
        l1n _ (by decide) (by decide)]
  have hmgx3 : dlookup p3 "map0:GRID_INTERVAL_X" = none := by
    rw [l3n _ (by decide) (by decide), l2n _ (by decide) (by decide),
        l1n _ (by decide) (by decide)]
    exact hGX
  have hgy4 : dlookup p4 "GRID_INTERVAL_Y" = dlookup m "GRID_INTERVAL_Y" := by
    rw [l4n _ (by decide) (by decide), l3n _ (by decide) (by decide),
        l2n _ (by decide) (by decide), l1n _ (by decide) (by decide)]
  have hmgy4 : dlookup p4 "map0:GRID_INTERVAL_Y" = none := by
    rw [l4n _ (by decide) (by decide), l3n _ (by decide) (by decide),
        l2n _ (by decide) (by decide), l1n _ (by decide) (by decide)]
    exact hGY
  have hx4a : dlookup p4 "map0:GRID_INTERVAL_X" = dlookup m "GRID_INTERVAL_X" := by
    rw [hp4]
    unfold renameIfPresent
    rcases hg : dlookup p3 "GRID_INTERVAL_X" with - | v
    · rw [hmgx3, ← hg, hgx3]
    · rw [dlookup_rename_new p3 _ _ v (by decide), ← hg, hgx3]
  have hx4b : dlookup p4 "GRID_INTERVAL_X" = none := by
    rw [hp4]
    unfold renameIfPresent
    rcases hg : dlookup p3 "GRID_INTERVAL_X" with - | v
    · exact hg
    · exact dlookup_rename_old p3 _ _ v np3
  have hy5a : dlookup p5 "map0:GRID_INTERVAL_Y" = dlookup m "GRID_INTERVAL_Y" := by
    rw [hp5]
    unfold renameIfPresent
    rcases hg : dlookup p4 "GRID_INTERVAL_Y" with - | v
    · rw [hmgy4, ← hg, hgy4]
    · rw [dlookup_rename_new p4 _ _ v (by decide), ← hg, hgy4]
  have hy5b : dlookup p5 "GRID_INTERVAL_Y" = none := by
    rw [hp5]
    unfold renameIfPresent
    rcases hg : dlookup p4 "GRID_INTERVAL_Y" with - | v
    · exact hg
    · exact dlookup_rename_old p4 _ _ v np4
  refine ⟨?_, ?_, ?_, ?_, ?_, ?_, ?_, ?_, hy5a, hy5b⟩
  · rw [l5n _ (by decide) (by decide), l4n _ (by decide) (by decide),
        l3n _ (by decide) (by decide), l2n _ (by decide) (by decide), hp1]
    exact dlookup_rename_new m _ _ ve (by decide)
  · rw [l5n _ (by decide) (by decide), l4n _ (by decide) (by decide),
        l3n _ (by decide) (by decide), l2n _ (by decide) (by decide), hp1]
    exact dlookup_rename_old m _ _ ve hnm
  · rw [l5n _ (by decide) (by decide), l4n _ (by decide) (by decide),
        l3n _ (by decide) (by decide), hp2]
    exact dlookup_rename_new p1 _ _ vs (by decide)
  · rw [l5n _ (by decide) (by decide), l4n _ (by decide) (by decide),
        l3n _ (by decide) (by decide), hp2]
    exact dlookup_rename_old p1 _ _ vs np1
  · rw [l5n _ (by decide) (by decide), l4n _ (by decide) (by decide), hp3]
    exact dlookup_rename_new p2 _ _ vr (by decide)
  · rw [l5n _ (by decide) (by decide), l4n _ (by decide) (by decide), hp3]
    exact dlookup_rename_old p2 _ _ vr np2
  · rw [l5n _ (by decide) (by decide)]
    exact hx4a
  · rw [l5n _ (by decide) (by decide)]
    exact hx4b

/-! ## The claims -/

/-- C4: when the capabilities fetch raises a transport error, the error
propagates out of `listTemplates` (it is never turned into an empty list):
the `requests.get` of `src/server.py` line 57 runs before the `try` of line
60.  Only XML-shape failures are swallowed: any fetch that returns a
response yields a normal result, namely the lenient parse of its body. -/
theorem C4_transport_error_propagates (d : String) :
    listTemplates d .transportError = .error .connectionError ∧
    ∀ body, listTemplates d (.response body) = .ok (parseCapabilities d body) :=
  ⟨rfl, fun _ => rfl⟩

/-- C9: a forwarded upstream response carries a content-disposition header
`attachment; filename=<project>.<FORMAT lower-cased>` if and only if the
upstream content type is exactly `application/pdf`, and the upstream status
code and content type are preserved in all cases. -/
theorem C9_forward_headers (project : String) (params : List (String × String))
    (up : Upstream) (ct fmt : String) (hct : up.contentType = some ct)
    (hfmt : dlookup params "FORMAT" = some fmt) :
    forward project params up =
      .ok { status := up.status, contentType := ct,
            contentDisposition :=
              if ct = "application/pdf" then
                some ("attachment; filename=" ++ project ++ "." ++ pyLower fmt)
              else none } := by
  unfold forward
  rw [hct]
  by_cases h : ct = "application/pdf"
  · simp [h, hfmt]
  · simp [h]

/-- C9 witness: a concrete 200 / `application/pdf` upstream response is
forwarded with the status, the content type and the attachment
disposition `attachment; filename=grundbuch.pdf`. -/
theorem C9_forward_headers_witness :
    forward "grundbuch" [("FORMAT", "PDF")] ⟨200, some "application/pdf"⟩ =
      .ok ⟨200, "application/pdf", some "attachment; filename=grundbuch.pdf"⟩ := by
  have h := C9_forward_headers "grundbuch" [("FORMAT", "PDF")]
    ⟨200, some "application/pdf"⟩ "application/pdf" "PDF" rfl (by decide)
  rw [h]
  decide

/-- C2 (amended): the template listing never throws, and returns the empty
list when the document does not parse as XML, or when the
`WMS_Capabilities` / `Capability` / `ComposerTemplates` nesting is absent;
a per-template failure ends the loop with the entries accumulated before
it kept, so the result is the parse of the longest well-shaped prefix of
the template list (empty when the first template is already broken, but
not empty when a complete template precedes the broken one). -/
theorem C2_lenient_parse (d : String) :
    parseCapabilities d none = [] ∧
    (∀ doc, docElemsByTag "WMS_Capabilities" doc = [] →
        parseCapabilities d (some doc) = []) ∧
    (∀ doc wms rest, docElemsByTag "WMS_Capabilities" doc = wms :: rest →
        elemsByTag "Capability" wms = [] → parseCapabilities d (some doc) = []) ∧
    (∀ doc wms rest cap rest2,
        docElemsByTag "WMS_Capabilities" doc = wms :: rest →
        elemsByTag "Capability" wms = cap :: rest2 →
        elemsByTag "ComposerTemplates" cap = [] →
        parseCapabilities d (some doc) = []) ∧
    (∀ ts, capsProcess d ts =
        List.filterMap (parseTemplate d)
          (ts.takeWhile fun t => (parseTemplate d t).isSome)) := by
  refine ⟨rfl, fun doc h1 => ?_, fun doc wms rest h1 h2 => ?_,
    fun doc wms rest cap rest2 h1 h2 h3 => ?_, capsProcess_takeWhile d⟩
  · simp [parseCapabilities, h1]
  · simp [parseCapabilities, h1, h2]
  · simp [parseCapabilities, h1, h2, h3]

/-- C2 counterexample: in a document whose expected nesting is absent at the
level of the second template (it has no `ComposerMap`), the listing is NOT
the empty list the claim demands — the first template's entry is kept. -/
theorem C2_counterexample :
    elemsByTag "ComposerMap" (XNode.elem "ComposerTemplate" [("name", "A3-Quer")] []) = [] ∧
    parseCapabilities "A4-Hoch" (some c2doc) ≠ [] := by
  constructor
  · simp [elemsByTag, forestByTag]
  · simp [parseCapabilities, c2doc, docElemsByTag, elemsByTag, forestByTag,
      capsProcess, parseTemplate, getAttr, dlookup,
      pyFloat, pyFloatChars, isPyWs, digitsVal, data_asString]

/-- C3 (amended): the database connection is released on every exit path of
the print handler EXCEPT when the spatial query itself raises: in that case
the connection was acquired but `conn.close()` (line 150) is never reached.
On every path where the query returns normally — including the later
missing-`SCALE` / `ROTATION` failures — an acquired connection is
released. -/
theorem C3_connection_release (layers : String) (query : ℚ → ℚ → QueryResult)
    (post : List (String × String)) :
    ((build layers query post).outcome = .error .queryError →
        (build layers query post).connAcquired = true ∧
        (build layers query post).connReleased = false) ∧
    ((build layers query post).connAcquired = true →
        (build layers query post).outcome ≠ .error .queryError →
        (build layers query post).connReleased = true) := by
  unfold build
  rcases hE : dlookup (baseParams layers post) "EXTENT" with - | extStr
  · constructor <;> simp [withExtent]
  · simp only [withExtent]
    rcases hP : parseFloats (pySplitComma extStr) with - | fs
    · constructor <;> simp [withFloats]
    · rcases fs with - | ⟨e0, - | ⟨e1, - | ⟨e2, - | ⟨e3, rest⟩⟩⟩⟩
      · constructor <;> simp [withFloats]
      · constructor <;> simp [withFloats]
      · constructor <;> simp [withFloats]
      · constructor <;> simp [withFloats]
      · simp only [withFloats]
        rcases hqx : query ((1 / 2 : ℚ) * (e0 + e2)) ((1 / 2 : ℚ) * (e1 + e3))
          with row | -
        · simp only [withQuery, hqx]
          constructor <;> simp [finishParams_ne_queryError]
        · simp only [withQuery, hqx]
          constructor <;> simp

/-- C3 counterexample: on a valid print call whose spatial query raises, the
connection is acquired but never released, contradicting "released on every
exit path, including the path where the spatial query itself raises". -/
theorem C3_counterexample :
    (build "Grundstuecke" queryRaises
        [("EXTENT", "0,0,2,2"), ("SCALE", "1"), ("ROTATION", "0")]).connAcquired = true ∧
    (build "Grundstuecke" queryRaises
        [("EXTENT", "0,0,2,2"), ("SCALE", "1"), ("ROTATION", "0")]).connReleased = false := by
  decide

/-- C1 (amended): with the spatial query returning normally, `build` fails
with `MissingParameterError` (a `KeyError`) for `EXTENT` when `EXTENT` is
absent after the merge; fails with `MalformedParameterError` when `EXTENT`
is present but one of its comma-separated entries does not convert to
`float` (`ValueError`) or fewer than four entries result (`IndexError`);
fails with `MissingParameterError` for `SCALE` / `ROTATION` when those are
absent; and in every other case succeeds and returns a print request.  The
success condition is at least four float entries — not exactly four as the
claim states. -/
theorem C1_build_outcomes (layers : String) (query : ℚ → ℚ → QueryResult)
    (post : List (String × String)) (hq : ∀ x y, query x y ≠ .raises) :
    (dlookup (mergedParams post) "EXTENT" = none →
        (build layers query post).outcome = .error (.keyError "EXTENT")) ∧
    (∀ s, dlookup (mergedParams post) "EXTENT" = some s →
        parseFloats (pySplitComma s) = none →
        (build layers query post).outcome = .error .valueError) ∧
    (∀ s fs, dlookup (mergedParams post) "EXTENT" = some s →
        parseFloats (pySplitComma s) = some fs → fs.length < 4 →
        (build layers query post).outcome = .error .indexError) ∧
    (∀ s fs, dlookup (mergedParams post) "EXTENT" = some s →
        parseFloats (pySplitComma s) = some fs → 4 ≤ fs.length →
        dlookup (mergedParams post) "SCALE" = none →
        (build layers query post).outcome = .error (.keyError "SCALE")) ∧
    (∀ s fs vs, dlookup (mergedParams post) "EXTENT" = some s →
        parseFloats (pySplitComma s) = some fs → 4 ≤ fs.length →
        dlookup (mergedParams post) "SCALE" = some vs →
        dlookup (mergedParams post) "ROTATION" = none →
        (build layers query post).outcome = .error (.keyError "ROTATION")) ∧
    (∀ s fs vs vr, dlookup (mergedParams post) "EXTENT" = some s →
        parseFloats (pySplitComma s) = some fs → 4 ≤ fs.length →
        dlookup (mergedParams post) "SCALE" = some vs →
        dlookup (mergedParams post) "ROTATION" = some vr →
        ∃ res, (build layers query post).outcome = .ok res) := by
  have hbE : dlookup (baseParams layers post) "EXTENT" =
      dlookup (mergedParams post) "EXTENT" :=
    dlookup_baseParams_ne layers post "EXTENT" (by decide) (by decide)
  refine ⟨?_, ?_, ?_, ?_, ?_, ?_⟩
  · intro hE
    unfold build
    rw [hbE, hE]
    rfl
  · intro s hE hP
    unfold build
    rw [hbE, hE]
    simp only [withExtent]
    rw [hP]
    rfl
  · intro s fs hE hP hlen
    unfold build
    rw [hbE, hE]
    simp only [withExtent]
    rw [hP]
    rcases fs with - | ⟨e0, - | ⟨e1, - | ⟨e2, - | ⟨e3, rest⟩⟩⟩⟩
    · rfl
    · rfl
    · rfl
    · rfl
    · exfalso
      simp only [List.length_cons] at hlen
      omega
  · intro s fs hE hP h4 hS
    unfold build
    rw [hbE, hE]
    simp only [withExtent]
    rw [hP]
    rcases fs with - | ⟨e0, - | ⟨e1, - | ⟨e2, - | ⟨e3, rest⟩⟩⟩⟩
    · exfalso; simp at h4
    · exfalso; simp only [List.length_cons, List.length_nil] at h4; omega
    · exfalso; simp only [List.length_cons, List.length_nil] at h4; omega
    · exfalso; simp only [List.length_cons, List.length_nil] at h4; omega
    · simp only [withFloats]
      rcases hqx : query ((1 / 2 : ℚ) * (e0 + e2)) ((1 / 2 : ℚ) * (e1 + e3))
        with row | -
      · simp only [withQuery, hqx]
        have hE2 : dlookup (enrich row (baseParams layers post)) "EXTENT" = some s := by
          rw [dlookup_enrich_ne _ _ _ (by decide), hbE]
          exact hE
        have hS2 : dlookup (enrich row (baseParams layers post)) "SCALE" = none := by
          rw [dlookup_enrich_ne _ _ _ (by decide),
              dlookup_baseParams_ne layers post "SCALE" (by decide) (by decide)]
          exact hS
        exact finishParams_scale_missing _ s hE2 hS2
      · exact absurd hqx (hq _ _)
  · intro s fs vs hE hP h4 hS hR
    unfold build
    rw [hbE, hE]
    simp only [withExtent]
    rw [hP]
    rcases fs with - | ⟨e0, - | ⟨e1, - | ⟨e2, - | ⟨e3, rest⟩⟩⟩⟩
    · exfalso; simp at h4
    · exfalso; simp only [List.length_cons, List.length_nil] at h4; omega
    · exfalso; simp only [List.length_cons, List.length_nil] at h4; omega
    · exfalso; simp only [List.length_cons, List.length_nil] at h4; omega
    · simp only [withFloats]
      rcases hqx : query ((1 / 2 : ℚ) * (e0 + e2)) ((1 / 2 : ℚ) * (e1 + e3))
        with row | -
      · simp only [withQuery, hqx]
        have hE2 : dlookup (enrich row (baseParams layers post)) "EXTENT" = some s := by
          rw [dlookup_enrich_ne _ _ _ (by decide), hbE]
          exact hE
        have hS2 : dlookup (enrich row (baseParams layers post)) "SCALE" = some vs := by
          rw [dlookup_enrich_ne _ _ _ (by decide),
              dlookup_baseParams_ne layers post "SCALE" (by decide) (by decide)]
          exact hS
        have hR2 : dlookup (enrich row (baseParams layers post)) "ROTATION" = none := by
          rw [dlookup_enrich_ne _ _ _ (by decide),
              dlookup_baseParams_ne layers post "ROTATION" (by decide) (by decide)]
          exact hR
        exact finishParams_rotation_missing _ s vs hE2 hS2 hR2
      · exact absurd hqx (hq _ _)
  · intro s fs vs vr hE hP h4 hS hR
    unfold build
    rw [hbE, hE]
    simp only [withExtent]
    rw [hP]
    rcases fs with - | ⟨e0, - | ⟨e1, - | ⟨e2, - | ⟨e3, rest⟩⟩⟩⟩
    · exfalso; simp at h4
    · exfalso; simp only [List.length_cons, List.length_nil] at h4; omega
    · exfalso; simp only [List.length_cons, List.length_nil] at h4; omega
    · exfalso; simp only [List.length_cons, List.length_nil] at h4; omega
    · simp only [withFloats]
      rcases hqx : query ((1 / 2 : ℚ) * (e0 + e2)) ((1 / 2 : ℚ) * (e1 + e3))
        with row | -
      · simp only [withQuery, hqx]
        have hE2 : dlookup (enrich row (baseParams layers post)) "EXTENT" = some s := by
          rw [dlookup_enrich_ne _ _ _ (by decide), hbE]
          exact hE
        have hS2 : dlookup (enrich row (baseParams layers post)) "SCALE" = some vs := by
          rw [dlookup_enrich_ne _ _ _ (by decide),
              dlookup_baseParams_ne layers post "SCALE" (by decide) (by decide)]
          exact hS
        have hR2 : dlookup (enrich row (baseParams layers post)) "ROTATION" = some vr := by
          rw [dlookup_enrich_ne _ _ _ (by decide),
              dlookup_baseParams_ne layers post "ROTATION" (by decide) (by decide)]
          exact hR
        exact ⟨_, finishParams_eq _ s vs vr hE2 hS2 hR2⟩
      · exact absurd hqx (hq _ _)

/-- C1 counterexample: `EXTENT = "1,2,3,4,5"` does not parse as FOUR
comma-separated floats (it has five entries), so the claim requires a
`MalformedParameterError`; the code succeeds and returns a print request. -/
theorem C1_counterexample :
    (pySplitComma "1,2,3,4,5").length ≠ 4 ∧
    (build "Grundstuecke" queryNoRow
        [("EXTENT", "1,2,3,4,5"), ("SCALE", "500"), ("ROTATION", "0")]).outcome =
      .ok [("SERVICE", "WMS"), ("VERSION", "1.3.0"), ("REQUEST", "GetPrint"),
           ("FORMAT", "PDF"), ("LAYERS", "Grundstuecke"), ("OPACITIES", "255"),
           ("map0:EXTENT", "1,2,3,4,5"), ("map0:SCALE", "500"),
           ("map0:ROTATION", "0")] := by
  decide

/-- C1 witness: with no caller parameters the merged mapping lacks `EXTENT`
and the build fails with the `EXTENT` key error (the spec's
`MissingParameterError`). -/
theorem C1_build_outcomes_witness :
    (build "Grundstuecke" queryNoRow []).outcome = .error (.keyError "EXTENT") :=
  (C1_build_outcomes "Grundstuecke" queryNoRow []
    (fun x y h => by simp [queryNoRow] at h)).1 (by decide)

/-- C7: on every print call whose merged `EXTENT` splits into at least four
floats `minx, miny, maxx, maxy, ...`, the spatial lookup is invoked at
exactly the centroid `((minx + maxx) / 2, (miny + maxy) / 2)` with SRID
2056 — whether the query then returns or raises. -/
theorem C7_centroid (layers : String) (query : ℚ → ℚ → QueryResult)
    (post : List (String × String)) (s : String) (e0 e1 e2 e3 : ℚ)
    (rest : List ℚ)
    (hE : dlookup (mergedParams post) "EXTENT" = some s)
    (hP : parseFloats (pySplitComma s) = some (e0 :: e1 :: e2 :: e3 :: rest)) :
    (build layers query post).queried =
      some ((e0 + e2) / 2, (e1 + e3) / 2, 2056) := by
  have hbE : dlookup (baseParams layers post) "EXTENT" =
      dlookup (mergedParams post) "EXTENT" :=
    dlookup_baseParams_ne layers post "EXTENT" (by decide) (by decide)
  have hx : (1 / 2 : ℚ) * (e0 + e2) = (e0 + e2) / 2 := by ring
  have hy : (1 / 2 : ℚ) * (e1 + e3) = (e1 + e3) / 2 := by ring
  unfold build
  rw [hbE, hE]
  simp only [withExtent]
  rw [hP]
  simp only [withFloats]
  rcases hqx : query ((1 / 2 : ℚ) * (e0 + e2)) ((1 / 2 : ℚ) * (e1 + e3))
    with row | -
  · simp only [withQuery, hqx]
    rw [hx, hy]
  · simp only [withQuery, hqx]
    rw [hx, hy]

/-- C7 witness: for `EXTENT = "10,20,30,40"` the lookup point is exactly
`(20, 30)` with SRID 2056. -/
theorem C7_centroid_witness :
    (build "Grundstuecke" queryNoRow
        [("EXTENT", "10,20,30,40"), ("SCALE", "500"), ("ROTATION", "0")]).queried =
      some (20, 30, 2056) := by
  have h := C7_centroid "Grundstuecke" queryNoRow
    [("EXTENT", "10,20,30,40"), ("SCALE", "500"), ("ROTATION", "0")]
    "10,20,30,40" 10 20 30 40 [] (by decide)
    (by simp [pySplitComma, splitCommaCh, parseFloats, pyFloat, pyFloatChars,
          isPyWs, digitsVal, data_asString])
  rw [h]
  norm_num

/-- C5: on every successful build, `map0:EXTENT`, `map0:SCALE` and
`map0:ROTATION` are present and hold exactly what the unprefixed keys held
after the merge, the bare `EXTENT` / `SCALE` / `ROTATION` keys are gone,
and the two grid-interval keys are renamed to their `map0:` forms exactly
when present (absent grid keys stay absent in both spellings). -/
theorem C5_renaming (layers : String) (query : ℚ → ℚ → QueryResult)
    (post res : List (String × String))
    (h : (build layers query post).outcome = .ok res) :
    (dlookup res "map0:EXTENT" = dlookup (mergedParams post) "EXTENT" ∧
      dlookup res "EXTENT" = none ∧ (dlookup res "map0:EXTENT").isSome = true) ∧
    (dlookup res "map0:SCALE" = dlookup (mergedParams post) "SCALE" ∧
      dlookup res "SCALE" = none ∧ (dlookup res "map0:SCALE").isSome = true) ∧
    (dlookup res "map0:ROTATION" = dlookup (mergedParams post) "ROTATION" ∧
      dlookup res "ROTATION" = none ∧ (dlookup res "map0:ROTATION").isSome = true) ∧
    (dlookup res "map0:GRID_INTERVAL_X" =
        dlookup (mergedParams post) "GRID_INTERVAL_X" ∧
      dlookup res "GRID_INTERVAL_X" = none) ∧
    (dlookup res "map0:GRID_INTERVAL_Y" =
        dlookup (mergedParams post) "GRID_INTERVAL_Y" ∧
      dlookup res "GRID_INTERVAL_Y" = none) := by
  obtain ⟨row, ve, vs, vr, hE, hS, hR, hres⟩ := build_ok_result layers query post res h
  have hnm : keysNodup (enrich row (baseParams layers post)) :=
    keysNodup_enrich _ _ (keysNodup_baseParams _ _)
  have hmerge : ∀ key,
      key ∉ ["NFGEOMETER", "LIEFERDATUM", "ANSCHRIFT", "KONTAKT", "GEMEINDE"] →
      key ≠ "LAYERS" → key ≠ "OPACITIES" →
      dlookup (enrich row (baseParams layers post)) key =
        dlookup (mergedParams post) key := fun key h1 h2 h3 => by
    rw [dlookup_enrich_ne _ _ _ h1, dlookup_baseParams_ne _ _ _ h2 h3]
  have hGX : dlookup (enrich row (baseParams layers post)) "map0:GRID_INTERVAL_X" = none := by
    rw [hmerge _ (by decide) (by decide) (by decide)]
    exact dlookup_mergedParams_not_upper post _
      (pyUpper_ne_mapKey _ ("ap0:GRID_INTERVAL_X".data) rfl)
  have hGY : dlookup (enrich row (baseParams layers post)) "map0:GRID_INTERVAL_Y" = none := by
    rw [hmerge _ (by decide) (by decide) (by decide)]
    exact dlookup_mergedParams_not_upper post _
      (pyUpper_ne_mapKey _ ("ap0:GRID_INTERVAL_Y".data) rfl)
  obtain ⟨t1, t2, t3, t4, t5, t6, t7, t8, t9, t10⟩ :=
    tower_lookups (enrich row (baseParams layers post)) ve vs vr hnm hGX hGY
  subst hres
  refine ⟨⟨?_, t2, ?_⟩, ⟨?_, t4, ?_⟩, ⟨?_, t6, ?_⟩, ⟨?_, t8⟩, ⟨?_, t10⟩⟩
  · rw [t1]
    exact ((hmerge _ (by decide) (by decide) (by decide)).symm.trans hE).symm
  · rw [t1]
    rfl
  · rw [t3]
    exact ((hmerge _ (by decide) (by decide) (by decide)).symm.trans hS).symm
  · rw [t3]
    rfl
  · rw [t5]
    exact ((hmerge _ (by decide) (by decide) (by decide)).symm.trans hR).symm
  · rw [t5]
    rfl
  · rw [t7]
    exact hmerge _ (by decide) (by decide) (by decide)
  · rw [t9]
    exact hmerge _ (by decide) (by decide) (by decide)

/-- C5 witness: on a concrete successful build with a `GRID_INTERVAL_X`
parameter, the bare `EXTENT` key is gone and `map0:EXTENT` holds the merged
`EXTENT` value. -/
theorem C5_renaming_witness :
    dlookup ((build "Grundstuecke" queryNoRow
        [("EXTENT", "0,0,2,2"), ("SCALE", "1"), ("ROTATION", "0"),
         ("GRID_INTERVAL_X", "100")]).outcome.toOption.getD []) "EXTENT" = none ∧
    dlookup ((build "Grundstuecke" queryNoRow
        [("EXTENT", "0,0,2,2"), ("SCALE", "1"), ("ROTATION", "0"),
         ("GRID_INTERVAL_X", "100")]).outcome.toOption.getD []) "map0:EXTENT" =
      dlookup (mergedParams
        [("EXTENT", "0,0,2,2"), ("SCALE", "1"), ("ROTATION", "0"),
         ("GRID_INTERVAL_X", "100")]) "EXTENT" := by
  have h := C5_renaming "Grundstuecke" queryNoRow
    [("EXTENT", "0,0,2,2"), ("SCALE", "1"), ("ROTATION", "0"),
     ("GRID_INTERVAL_X", "100")]
    ((build "Grundstuecke" queryNoRow
      [("EXTENT", "0,0,2,2"), ("SCALE", "1"), ("ROTATION", "0"),
       ("GRID_INTERVAL_X", "100")]).outcome.toOption.getD []) (by decide)
  exact ⟨h.1.2.1, h.1.1⟩

/-- C6: in every print request a successful build produces, `LAYERS` is
exactly the configured printable layer list and `OPACITIES` splits on
commas into exactly one `"255"` per comma-separated entry of that list. -/
theorem C6_layers_opacities (layers : String) (query : ℚ → ℚ → QueryResult)
    (post res : List (String × String))
    (h : (build layers query post).outcome = .ok res) :
    dlookup res "LAYERS" = some layers ∧
    ∃ ops, dlookup res "OPACITIES" = some ops ∧
      pySplitComma ops = List.replicate (pySplitComma layers).length "255" ∧
      1 ≤ (pySplitComma layers).length := by
  obtain ⟨row, ve, vs, vr, hE, hS, hR, hres⟩ := build_ok_result layers query post res h
  subst hres
  have hL : dlookup (enrich row (baseParams layers post)) "LAYERS" = some layers := by
    rw [dlookup_enrich_ne _ _ _ (by decide)]
    unfold baseParams
    rw [dlookup_dinsert_ne _ _ _ _ (by decide), dlookup_dinsert_self]
  have hO : dlookup (enrich row (baseParams layers post)) "OPACITIES" =
      some (opacitiesFor layers) := by
    rw [dlookup_enrich_ne _ _ _ (by decide)]
    unfold baseParams
    rw [dlookup_dinsert_self]
  refine ⟨?_, opacitiesFor layers, ?_, pySplit_opacities layers,
    pySplitComma_length_pos layers⟩
  · rw [dlookup_finish_tower_ne _ _ _ _ _ (by decide)]
    exact hL
  · rw [dlookup_finish_tower_ne _ _ _ _ _ (by decide)]
    exact hO

/-- C6 witness: on a concrete successful build with a three-layer
configuration, `LAYERS` is the configured list and `OPACITIES` is
`255,255,255`. -/
theorem C6_layers_opacities_witness :
    dlookup ((build "a,b,c" queryNoRow
        [("EXTENT", "0,0,2,2"), ("SCALE", "1"), ("ROTATION", "0")]).outcome.toOption.getD [])
      "LAYERS" = some "a,b,c" ∧
    ∃ ops, dlookup ((build "a,b,c" queryNoRow
        [("EXTENT", "0,0,2,2"), ("SCALE", "1"), ("ROTATION", "0")]).outcome.toOption.getD [])
      "OPACITIES" = some ops ∧ pySplitComma ops = ["255", "255", "255"] := by
  have h := C6_layers_opacities "a,b,c" queryNoRow
    [("EXTENT", "0,0,2,2"), ("SCALE", "1"), ("ROTATION", "0")]
    ((build "a,b,c" queryNoRow
      [("EXTENT", "0,0,2,2"), ("SCALE", "1"), ("ROTATION", "0")]).outcome.toOption.getD [])
    (by decide)
  obtain ⟨h1, ops, h2, h3, -⟩ := h
  refine ⟨h1, ops, h2, ?_⟩
  rw [h3]
  decide

/-- C10 (amended): relative to the merged defaults-plus-caller mapping,
every key outside the managed set — the seven normalization keys, the five
parcel-enrichment fields and the five `map0:`-prefixed rename targets — is
forwarded unchanged (present with the same value, or absent in both). -/
theorem C10_frame (layers : String) (query : ℚ → ℚ → QueryResult)
    (post res : List (String × String)) (key : String)
    (h : (build layers query post).outcome = .ok res)
    (hkey : key ∉ ["EXTENT", "SCALE", "ROTATION", "GRID_INTERVAL_X",
      "GRID_INTERVAL_Y", "LAYERS", "OPACITIES", "NFGEOMETER", "LIEFERDATUM",
      "ANSCHRIFT", "KONTAKT", "GEMEINDE", "map0:EXTENT", "map0:SCALE",
      "map0:ROTATION", "map0:GRID_INTERVAL_X", "map0:GRID_INTERVAL_Y"]) :
    dlookup res key = dlookup (mergedParams post) key := by
  obtain ⟨row, ve, vs, vr, hE, hS, hR, hres⟩ := build_ok_result layers query post res h
  subst hres
  simp only [List.mem_cons, List.mem_singleton] at hkey
  push_neg at hkey
  obtain ⟨k1, k2, k3, k4, k5, k6, k7, k8, k9, k10, k11, k12, k13, k14, k15, k16, k17, -⟩ := hkey
  rw [dlookup_finish_tower_ne _ _ _ _ _
    (by simp [k1, k2, k3, k4, k5, k13, k14, k15, k16, k17])]
  rw [dlookup_enrich_ne _ _ _ (by simp [k8, k9, k10, k11, k12])]
  exact dlookup_baseParams_ne _ _ _ k6 k7

/-- C10 witness: a caller-supplied `TEMPLATE` parameter, which is none of
the managed keys, reaches the forwarded request unchanged. -/
theorem C10_frame_witness :
    dlookup ((build "Grundstuecke" queryNoRow
        [("TEMPLATE", "A4-Hoch"), ("EXTENT", "0,0,2,2"), ("SCALE", "1"),
         ("ROTATION", "0")]).outcome.toOption.getD []) "TEMPLATE" =
      dlookup (mergedParams
        [("TEMPLATE", "A4-Hoch"), ("EXTENT", "0,0,2,2"), ("SCALE", "1"),
         ("ROTATION", "0")]) "TEMPLATE" :=
  C10_frame "Grundstuecke" queryNoRow
    [("TEMPLATE", "A4-Hoch"), ("EXTENT", "0,0,2,2"), ("SCALE", "1"),
     ("ROTATION", "0")]
    ((build "Grundstuecke" queryNoRow
      [("TEMPLATE", "A4-Hoch"), ("EXTENT", "0,0,2,2"), ("SCALE", "1"),
       ("ROTATION", "0")]).outcome.toOption.getD [])
    "TEMPLATE" (by decide) (by decide)

/-- C8: for a well-formed capabilities document whose template elements are
`ts` (names unique, each with a `ComposerMap` whose width and height parse),
the listing returns exactly `ts.length` descriptors with name, map width,
map height and map name copied verbatim from the document, and exactly one
descriptor is marked default iff some template's name equals the configured
default layout name, else none is marked. -/
theorem C8_well_formed_listing (d : String) (doc wms cap cts : XNode)
    (ts : List XNode)
    (h1 : (docElemsByTag "WMS_Capabilities" doc).head? = some wms)
    (h2 : (elemsByTag "Capability" wms).head? = some cap)
    (h3 : (elemsByTag "ComposerTemplates" cap).head? = some cts)
    (h4 : elemsByTag "ComposerTemplate" cts = ts)
    (h5 : ∀ t ∈ ts, (parseTemplate d t).isSome = true)
    (h6 : (ts.map fun t => getAttr "name" t).Nodup) :
    (parseCapabilities d (some doc)).length = ts.length ∧
    parseCapabilities d (some doc) = ts.filterMap (parseTemplate d) ∧
    (∀ t ∈ ts, ∃ e cm tail, parseTemplate d t = some e ∧
        elemsByTag "ComposerMap" t = cm :: tail ∧
        e.name = getAttr "name" t ∧ e.mapName = getAttr "name" cm ∧
        pyFloat (getAttr "width" cm) = some e.mapWidth ∧
        pyFloat (getAttr "height" cm) = some e.mapHeight ∧
        (e.isDefault = true ↔ e.name = d)) ∧
    (parseCapabilities d (some doc)).countP (fun e => e.isDefault) =
      (if ts.any (fun t => getAttr "name" t == d) then 1 else 0) := by
  have hred : parseCapabilities d (some doc) = capsProcess d ts := by
    rcases hw : docElemsByTag "WMS_Capabilities" doc with - | ⟨w, wr⟩
    · rw [hw] at h1
      simp at h1
    · rw [hw] at h1
      simp only [List.head?_cons, Option.some.injEq] at h1
      subst h1
      rcases hc : elemsByTag "Capability" w with - | ⟨c, cr⟩
      · rw [hc] at h2
        simp at h2
      · rw [hc] at h2
        simp only [List.head?_cons, Option.some.injEq] at h2
        subst h2
        rcases hct : elemsByTag "ComposerTemplates" c with - | ⟨ct, ctr⟩
        · rw [hct] at h3
          simp at h3
        · rw [hct] at h3
          simp only [List.head?_cons, Option.some.injEq] at h3
          subst h3
          simp only [parseCapabilities, hw, hc, hct, h4]
  have hall := capsProcess_all_some d ts h5
  have hcount := countP_capsProcess d ts h5
  refine ⟨?_, ?_, ?_, ?_⟩
  · rw [hred, hall]
    exact length_filterMap_all_some _ _ h5
  · rw [hred, hall]
  · intro t ht
    obtain ⟨e, he⟩ := Option.isSome_iff_exists.1 (h5 t ht)
    obtain ⟨f1, ⟨cm, tail, hcm, f2, f3, f4⟩, f5⟩ := parseTemplate_fields d t e he
    refine ⟨e, cm, tail, he, hcm, f1, f2, f3, f4, ?_⟩
    rw [f5, f1]
    simp [beq_iff_eq]
  · rw [hred, hcount]
    have hm := countP_nodup_names d (ts.map fun t => getAttr "name" t) h6
    rw [List.countP_map, any_map_beq] at hm
    exact hm

/-- C8 witness: a concrete well-formed document with two complete templates
(the first named like the configured default) lists exactly two descriptors
of which exactly one is marked default. -/
theorem C8_well_formed_listing_witness :
    (parseCapabilities "A4-Hoch" (some c8doc)).length = 2 ∧
    (parseCapabilities "A4-Hoch" (some c8doc)).countP (fun e => e.isDefault) = 1 := by
  have h := C8_well_formed_listing "A4-Hoch" c8doc c8doc c8cap c8cts [c8t1, c8t2]
    (by simp [c8doc, c8cap, c8cts, c8t1, c8t2, c8map1, c8map2,
          docElemsByTag, forestByTag])
    (by simp [c8doc, c8cap, c8cts, c8t1, c8t2, c8map1, c8map2,
          elemsByTag, forestByTag])
    (by simp [c8cap, c8cts, c8t1, c8t2, c8map1, c8map2, elemsByTag, forestByTag])
    (by simp [c8cts, c8t1, c8t2, c8map1, c8map2, elemsByTag, forestByTag])
    (by
      intro t ht
      simp only [List.mem_cons, List.mem_singleton] at ht
      rcases ht with rfl | rfl | h0
      · simp [parseTemplate, c8t1, c8map1, elemsByTag, forestByTag, getAttr,
          dlookup, pyFloat, pyFloatChars, isPyWs, digitsVal, data_asString]
      · simp [parseTemplate, c8t2, c8map2, elemsByTag, forestByTag, getAttr,
          dlookup, pyFloat, pyFloatChars, isPyWs, digitsVal, data_asString]
      · simp at h0)
    (by simp [c8t1, c8t2, getAttr, dlookup])
  refine ⟨?_, ?_⟩
  · rw [h.1]
    rfl
  · rw [h.2.2.2]
    simp [List.any_cons, c8t1, getAttr, dlookup]

/-- C10 counterexample: a caller-supplied `NFGEOMETER` parameter — whose
upper-cased key is not one of the seven keys the claim lists — does NOT
appear in the forwarded request with its value unchanged: the spatial
enrichment overwrites it with the row's value. -/
theorem C10_counterexample :
    (("NFGEOMETER", "alice") ∈
      [("EXTENT", "0,0,2,2"), ("SCALE", "1"), ("ROTATION", "0"),
       ("NFGEOMETER", "alice")] ∧
     pyUpper "NFGEOMETER" ∉ ["EXTENT", "SCALE", "ROTATION", "GRID_INTERVAL_X",
       "GRID_INTERVAL_Y", "LAYERS", "OPACITIES"]) ∧
    outcomeLookup (build "Grundstuecke"
        (fun _ _ => .ok (some ⟨"bob", "2024-01-01", "addr", "kontakt", "gem"⟩))
        [("EXTENT", "0,0,2,2"), ("SCALE", "1"), ("ROTATION", "0"),
         ("NFGEOMETER", "alice")]) "NFGEOMETER" = some "bob" ∧
    (build "Grundstuecke"
        (fun _ _ => .ok (some ⟨"bob", "2024-01-01", "addr", "kontakt", "gem"⟩))
        [("EXTENT", "0,0,2,2"), ("SCALE", "1"), ("ROTATION", "0"),
         ("NFGEOMETER", "alice")]).outcome.toOption.isSome = true := by
  decide

end LandReg
